import Mathlib

/- Shallow embedding of the QuickELT ingestion templates: the bronze-layer
   path namer, the polars pydantic batch validator, the writer's file
   operations, the metadata records, the web-scraping ingestion driver,
   and the tenacity retry policy. -/

namespace QuickELT

/-- A wall-clock reading as returned by datetime.now(): calendar fields at
second resolution, plus a microsecond component that the strftime format
"%Y-%m-%d_%H%M%S" used by the templates discards. -/
structure DateTime where
  year : Nat
  month : Nat
  day : Nat
  hour : Nat
  minute : Nat
  second : Nat
  micro : Nat
deriving DecidableEq, Repr

/-- Zero-padded two-digit rendering, as the Python format spec 02d. -/
def pad2 (n : Nat) : String :=
  if n < 10 then "0" ++ toString n else toString n

/-- Zero-padded four-digit rendering, as strftime %Y. -/
def pad4 (n : Nat) : String :=
  if n < 10 then "000" ++ toString n
  else if n < 100 then "00" ++ toString n
  else if n < 1000 then "0" ++ toString n
  else toString n

/-- datetime.now().strftime("%Y-%m-%d_%H%M%S") as used by every template's
generate_file_paths.  The microsecond field is dropped. -/
def fmtTimestamp (t : DateTime) : String :=
  pad4 t.year ++ "-" ++ pad2 t.month ++ "-" ++ pad2 t.day ++ "_" ++
    pad2 t.hour ++ pad2 t.minute ++ pad2 t.second

/-- The BRONZE_PATH constant shared by the templates. -/
def BRONZE_PATH : String := "./data/bronze/"

/-- os.path.join("metadata", str(today.year), month 02d, day 02d): none of
the right-hand components contains a path separator and "metadata" does not
end in one, so the join inserts "/" between each pair. -/
def metadataDirOf (t : DateTime) : String :=
  "metadata" ++ "/" ++ toString t.year ++ "/" ++ pad2 t.month ++ "/" ++ pad2 t.day

/-- The tuple returned by generate_file_paths in the ingestion templates. -/
structure FilePaths where
  output_data_file : String
  output_metadata_file : String
  file_name : String
  timestamp : String
deriving DecidableEq, Repr

/-- generate_file_paths from src/ingestion/pandas_templates/api_template.py
(the polars databases template has the identical body).  The source reads
datetime.now() twice: t1 is the first read (used for the timestamp stem) and
t2 the second (used for the metadata directory date).  BRONZE_PATH ends in a
path separator, so os.path.join(BRONZE_PATH, name) is plain concatenation. -/
def generate_file_paths (origin framework : String) (t1 t2 : DateTime) : FilePaths :=
  let timestamp := fmtTimestamp t1
  let file_name := origin ++ "_" ++ framework ++ "_" ++ timestamp
  let output_data_file := BRONZE_PATH ++ (file_name ++ ".csv")
  let output_metadata_file := metadataDirOf t2 ++ "/" ++ (file_name ++ "_metadata.json")
  ⟨output_data_file, output_metadata_file, file_name, timestamp⟩

/-- C3: for every valid (origin, framework) input and reference clock, the
path namer produces a data file path and a metadata file path sharing the
same logical_name stem origin_framework_timestamp, and the metadata path's
parent directory encodes exactly the calendar date (year, zero-padded month,
zero-padded day) of that same timestamp. -/
theorem generate_file_paths_correlated (origin framework : String) (t : DateTime) :
    (generate_file_paths origin framework t t).file_name
        = origin ++ "_" ++ framework ++ "_" ++ fmtTimestamp t
    ∧ (generate_file_paths origin framework t t).output_data_file
        = BRONZE_PATH ++ ((generate_file_paths origin framework t t).file_name ++ ".csv")
    ∧ (generate_file_paths origin framework t t).output_metadata_file
        = metadataDirOf t ++ "/"
            ++ ((generate_file_paths origin framework t t).file_name ++ "_metadata.json")
    ∧ metadataDirOf t
        = "metadata" ++ "/" ++ toString t.year ++ "/" ++ pad2 t.month ++ "/" ++ pad2 t.day
    ∧ (generate_file_paths origin framework t t).timestamp = fmtTimestamp t :=
  ⟨rfl, rfl, rfl, rfl, rfl⟩

/-- C7: calling the path namer twice with the same (origin, framework) while
the clock is frozen at the same second (the two readings may differ only in
the sub-second component) yields identical data and metadata paths. -/
theorem generate_file_paths_second_collision (origin framework : String) (t1 t2 : DateTime)
    (hy : t1.year = t2.year) (hmo : t1.month = t2.month) (hd : t1.day = t2.day)
    (hh : t1.hour = t2.hour) (hmi : t1.minute = t2.minute) (hs : t1.second = t2.second) :
    generate_file_paths origin framework t1 t1 = generate_file_paths origin framework t2 t2 := by
  simp [generate_file_paths, fmtTimestamp, metadataDirOf, hy, hmo, hd, hh, hmi, hs]

/-- Witness for C7 at a concrete frozen second: two clock readings in the
same second, differing only in microseconds, give the same paths. -/
theorem generate_file_paths_second_collision_witness :
    generate_file_paths "api" "pandas" ⟨2024, 5, 7, 12, 30, 59, 0⟩ ⟨2024, 5, 7, 12, 30, 59, 0⟩
      = generate_file_paths "api" "pandas"
          ⟨2024, 5, 7, 12, 30, 59, 999999⟩ ⟨2024, 5, 7, 12, 30, 59, 999999⟩ :=
  generate_file_paths_second_collision "api" "pandas"
    ⟨2024, 5, 7, 12, 30, 59, 0⟩ ⟨2024, 5, 7, 12, 30, 59, 999999⟩ rfl rfl rfl rfl rfl rfl

/-- A cell value in a batch.  The claims about the validator concern only
type-convertibility, so integers, strings and booleans suffice as the value
universe. -/
inductive Value where
  | vInt (n : Int)
  | vStr (s : String)
  | vBool (b : Bool)
deriving DecidableEq, Repr

/-- A declared field type of a pydantic contract. -/
inductive FieldType where
  | tInt
  | tStr
  | tBool
deriving DecidableEq, Repr

/-- A pydantic model as consumed by the validator: model_fields as an ordered
association of field name to declared type. -/
abbrev Contract := List (String × FieldType)

/-- model.model_fields.keys() -/
def fieldNames (model : Contract) : List String :=
  model.map Prod.fst

/-- A polars DataFrame: its column names and its rows, each row as the dict
produced for it by df.to_dicts(). -/
structure DF where
  columns : List String
  rows : List (List (String × Value))
deriving DecidableEq, Repr

/-- Polars invariant: every dict produced by to_dicts has exactly the frame's
columns as keys, in order. -/
def wellFormed (df : DF) : Prop :=
  ∀ r ∈ df.rows, r.map Prod.fst = df.columns

instance (df : DF) : Decidable (wellFormed df) :=
  decidable_of_iff (∀ r ∈ df.rows, r.map Prod.fst = df.columns) Iff.rfl

/-- Dict lookup on a row. -/
def lookupVal (n : String) : List (String × Value) → Option Value
  | [] => none
  | (k, v) :: rest => if k = n then some v else lookupVal n rest

/-- Pydantic lax coercion of one value to a declared field type; none means
the coercion raises a validation error. -/
def convert : FieldType → Value → Option Value
  | .tInt, .vInt n => some (.vInt n)
  | .tInt, .vBool b => some (.vInt (if b then 1 else 0))
  | .tInt, .vStr s => (s.toInt?).map Value.vInt
  | .tStr, .vStr s => some (.vStr s)
  | .tStr, _ => none
  | .tBool, .vBool b => some (.vBool b)
  | .tBool, .vInt n =>
      if n = 0 then some (.vBool false)
      else if n = 1 then some (.vBool true)
      else none
  | .tBool, .vStr s =>
      if s = "true" then some (.vBool true)
      else if s = "false" then some (.vBool false)
      else none

/-- Validating one dict against the model, then model_dump: pydantic reads
exactly the model's fields from the dict (extra keys are ignored), coerces
each, and model_dump emits the fields in model order. -/
def validateRow (fields : Contract) (row : List (String × Value)) :
    Option (List (String × Value)) :=
  match fields with
  | [] => some []
  | (n, ty) :: rest =>
    match lookupVal n row with
    | none => none
    | some v =>
      match convert ty v with
      | none => none
      | some w =>
        match validateRow rest row with
        | none => none
        | some tl => some ((n, w) :: tl)

/-- TypeAdapter(list[model]).validate_python over df.to_dicts(): all-or-nothing
batch validation. -/
def validateRows (fields : Contract) : List (List (String × Value)) →
    Option (List (List (String × Value)))
  | [] => some []
  | r :: rs =>
    match validateRow fields r with
    | none => none
    | some d =>
      match validateRows fields rs with
      | none => none
      | some ds => some (d :: ds)

/-- pl.DataFrame applied to a list of dicts: an empty list yields an empty
frame with no columns; otherwise the columns are the keys of the dicts. -/
def dataFrameOfDicts (dicts : List (List (String × Value))) : DF :=
  match dicts with
  | [] => ⟨[], []⟩
  | d :: _ => ⟨d.map Prod.fst, dicts⟩

/-- The errors raised by validate_with_pydantic_batch (all ValueError in the
source; the constructor records which message was built). -/
inductive ValErr where
  | unexpectedColumns (cols : List String)
  | missingColumns (cols : List String)
  | pydanticError
deriving DecidableEq, Repr

instance : DecidableEq (Except ValErr DF) := fun a b =>
  match a, b with
  | .ok x, .ok y =>
    if h : x = y then isTrue (by rw [h]) else isFalse (by intro hc; cases hc; exact h rfl)
  | .error x, .error y =>
    if h : x = y then isTrue (by rw [h]) else isFalse (by intro hc; cases hc; exact h rfl)
  | .ok _, .error _ => isFalse (by intro hc; cases hc)
  | .error _, .ok _ => isFalse (by intro hc; cases hc)

/-- received_columns - expected_columns as computed by the validator. -/
def extraCols (df : DF) (model : Contract) : List String :=
  df.columns.filter (fun c => decide (c ∉ fieldNames model))

/-- expected_columns - received_columns as computed by the validator. -/
def missingCols (df : DF) (model : Contract) : List String :=
  (fieldNames model).filter (fun c => decide (c ∉ df.columns))

/-- validate_with_pydantic_batch from
src/utils/pydantic_validation_template_polars.py: in strict mode unexpected
columns are rejected first; missing columns are rejected unconditionally;
then the batch is validated all-or-nothing and a fresh frame is built from
the model dumps. -/
def validate_with_pydantic_batch (df : DF) (model : Contract) (strict : Bool) :
    Except ValErr DF :=
  if strict = true ∧ extraCols df model ≠ [] then
    .error (.unexpectedColumns (extraCols df model))
  else if missingCols df model ≠ [] then
    .error (.missingColumns (missingCols df model))
  else
    match validateRows model df.rows with
    | none => .error .pydanticError
    | some ds => .ok (dataFrameOfDicts ds)

/-- All of a row's present values coerce to their declared types. -/
def rowConvertible (model : Contract) (r : List (String × Value)) : Bool :=
  model.all fun p =>
    match lookupVal p.1 r with
    | none => true
    | some v => (convert p.2 v).isSome

lemma rowConvertible_spec (model : Contract) (r : List (String × Value))
    (h : rowConvertible model r = true) :
    ∀ p ∈ model, ∀ v, lookupVal p.1 r = some v → (convert p.2 v).isSome := by
  intro p hp v hv
  have h2 := List.all_eq_true.mp h p hp
  rw [hv] at h2
  exact h2

lemma lookupVal_isSome_of_mem (n : String) (row : List (String × Value))
    (h : n ∈ row.map Prod.fst) : (lookupVal n row).isSome := by
  induction row with
  | nil => simp at h
  | cons p rest ih =>
    obtain ⟨k, v⟩ := p
    rw [List.map_cons, List.mem_cons] at h
    by_cases hk : k = n
    · simp [lookupVal, hk]
    · have hmem : n ∈ rest.map Prod.fst := by
        cases h with
        | inl h1 => exact absurd h1.symm hk
        | inr h2 => exact h2
      simp only [lookupVal, if_neg hk]
      exact ih hmem

lemma validateRow_isSome (fields : Contract) (row : List (String × Value))
    (hlook : ∀ p ∈ fields, (lookupVal p.1 row).isSome)
    (hconv : ∀ p ∈ fields, ∀ v, lookupVal p.1 row = some v → (convert p.2 v).isSome) :
    ∃ d, validateRow fields row = some d ∧ d.map Prod.fst = fieldNames fields := by
  induction fields with
  | nil => exact ⟨[], rfl, rfl⟩
  | cons p rest ih =>
    obtain ⟨n, ty⟩ := p
    have h1 : (lookupVal n row).isSome := hlook (n, ty) (List.mem_cons_self _ _)
    obtain ⟨v, hv⟩ := Option.isSome_iff_exists.mp h1
    have h2 : (convert ty v).isSome := hconv (n, ty) (List.mem_cons_self _ _) v hv
    obtain ⟨w, hw⟩ := Option.isSome_iff_exists.mp h2
    obtain ⟨tl, htl, hkeys⟩ :=
      ih (fun q hq => hlook q (List.mem_cons_of_mem _ hq))
        (fun q hq => hconv q (List.mem_cons_of_mem _ hq))
    refine ⟨(n, w) :: tl, ?_, ?_⟩
    · simp [validateRow, hv, hw, htl]
    · simp [fieldNames] at hkeys ⊢
      exact hkeys

lemma validateRows_isSome (fields : Contract) (rows : List (List (String × Value)))
    (h : ∀ r ∈ rows, ∃ d, validateRow fields r = some d ∧ d.map Prod.fst = fieldNames fields) :
    ∃ ds, validateRows fields rows = some ds ∧ ds.length = rows.length
      ∧ ∀ d ∈ ds, d.map Prod.fst = fieldNames fields := by
  induction rows with
  | nil => exact ⟨[], rfl, rfl, by simp⟩
  | cons r rs ih =>
    obtain ⟨d, hd, hdk⟩ := h r (List.mem_cons_self _ _)
    obtain ⟨ds, hds, hlen, hk⟩ := ih (fun q hq => h q (List.mem_cons_of_mem _ hq))
    refine ⟨d :: ds, ?_, ?_, ?_⟩
    · simp [validateRows, hd, hds]
    · simp [hlen]
    · intro e he
      rcases List.mem_cons.mp he with h1 | h2
      · rw [h1]; exact hdk
      · exact hk e h2

lemma missingCols_eq_nil (df : DF) (model : Contract)
    (hexp : ∀ c ∈ fieldNames model, c ∈ df.columns) :
    missingCols df model = [] := by
  simp only [missingCols, List.filter_eq_nil_iff, decide_eq_true_eq]
  exact fun c hc => not_not_intro (hexp c hc)

lemma extraCols_eq_nil (df : DF) (model : Contract)
    (hrecv : ∀ c ∈ df.columns, c ∈ fieldNames model) :
    extraCols df model = [] := by
  simp only [extraCols, List.filter_eq_nil_iff, decide_eq_true_eq]
  exact fun c hc => not_not_intro (hrecv c hc)

lemma dataFrameOfDicts_rows_length (ds : List (List (String × Value))) :
    (dataFrameOfDicts ds).rows.length = ds.length := by
  cases ds <;> rfl

/-- Core success run of the validator: once the strict extra-column gate does
not fire and no required column is missing, the batch validates row by row
and the result is rebuilt from the model dumps. -/
lemma validate_success_core (df : DF) (model : Contract) (strict : Bool)
    (hwf : wellFormed df)
    (hfirst : ¬(strict = true ∧ extraCols df model ≠ []))
    (hexp : ∀ c ∈ fieldNames model, c ∈ df.columns)
    (hconv : ∀ r ∈ df.rows, rowConvertible model r = true) :
    ∃ ds, validateRows model df.rows = some ds
      ∧ validate_with_pydantic_batch df model strict = .ok (dataFrameOfDicts ds)
      ∧ ds.length = df.rows.length
      ∧ ∀ d ∈ ds, d.map Prod.fst = fieldNames model := by
  have hmiss : missingCols df model = [] := missingCols_eq_nil df model hexp
  have hrows : ∀ r ∈ df.rows,
      ∃ d, validateRow model r = some d ∧ d.map Prod.fst = fieldNames model := by
    intro r hr
    refine validateRow_isSome model r ?_ (rowConvertible_spec model r (hconv r hr))
    intro p hp
    apply lookupVal_isSome_of_mem
    rw [hwf r hr]
    exact hexp p.1 (List.mem_map_of_mem Prod.fst hp)
  obtain ⟨ds, hds, hlen, hk⟩ := validateRows_isSome model df.rows hrows
  refine ⟨ds, hds, ?_, hlen, hk⟩
  unfold validate_with_pydantic_batch
  rw [if_neg hfirst, if_neg (fun h => h hmiss), hds]

/-- C1: for every batch whose column set strictly equals the contract's field
set and whose values are all convertible to their declared types,
validate_with_pydantic_batch succeeds and returns a batch with the same row
count as the input, for either value of the strict flag. -/
theorem validate_total_success (df : DF) (model : Contract) (strict : Bool)
    (hwf : wellFormed df)
    (hrecv : ∀ c ∈ df.columns, c ∈ fieldNames model)
    (hexp : ∀ c ∈ fieldNames model, c ∈ df.columns)
    (hconv : ∀ r ∈ df.rows, rowConvertible model r = true) :
    ∃ out, validate_with_pydantic_batch df model strict = .ok out
      ∧ out.rows.length = df.rows.length := by
  have hext : extraCols df model = [] := extraCols_eq_nil df model hrecv
  obtain ⟨ds, _, hok, hlen, _⟩ :=
    validate_success_core df model strict hwf (fun h => h.2 hext) hexp hconv
  exact ⟨dataFrameOfDicts ds, hok, by rw [dataFrameOfDicts_rows_length, hlen]⟩

/-- A contract with an integer id and a string name. -/
def contractGood : Contract := [("id", .tInt), ("name", .tStr)]

/-- A two-row batch matching contractGood exactly. -/
def dfGood : DF :=
  ⟨["id", "name"],
   [[("id", .vInt 1), ("name", .vStr "a")],
    [("id", .vInt 2), ("name", .vStr "b")]]⟩

/-- Witness for C1 on a concrete two-row conforming batch. -/
theorem validate_total_success_witness :
    ∃ out, validate_with_pydantic_batch dfGood contractGood true = .ok out
      ∧ out.rows.length = dfGood.rows.length :=
  validate_total_success dfGood contractGood true
    (by decide) (by decide) (by decide) (by decide)

/-- Contract with two required integer fields a and b. -/
def contractAB : Contract := [("a", .tInt), ("b", .tInt)]

/-- Contract with the single required integer field a. -/
def contractA : Contract := [("a", .tInt)]

/-- A batch that is missing the contractAB field b and carries the extra
column x. -/
def dfBoth : DF := ⟨["a", "x"], [[("a", .vInt 1), ("x", .vInt 2)]]⟩

/-- A batch missing field b of contractAB, with no extra columns. -/
def dfMissing : DF := ⟨["a"], [[("a", .vInt 1)]]⟩

/-- C2 counterexample: a strict-mode batch missing the required column b and
carrying the extra column x fails with the unexpected-columns error naming x;
it does not fail with an error naming the missing column b, so the error does
not name the missing columns regardless of the strict flag. -/
theorem validate_missing_counterexample :
    validate_with_pydantic_batch dfBoth contractAB true
        = .error (.unexpectedColumns ["x"])
    ∧ missingCols dfBoth contractAB = ["b"]
    ∧ validate_with_pydantic_batch dfBoth contractAB true
        ≠ .error (.missingColumns ["b"]) := by
  decide

/-- C2 amended: a batch missing at least one contract field always fails, and
the error names exactly the missing columns except when strict mode also
detects extra columns, in which case the unexpected-columns error naming the
extras is raised first instead. -/
theorem validate_missing_rejected (df : DF) (model : Contract) (strict : Bool)
    (hmiss : missingCols df model ≠ []) :
    validate_with_pydantic_batch df model strict =
      (if strict = true ∧ extraCols df model ≠ []
       then .error (.unexpectedColumns (extraCols df model))
       else .error (.missingColumns (missingCols df model)))
    ∧ ∀ c, c ∈ missingCols df model ↔ (c ∈ fieldNames model ∧ c ∉ df.columns) := by
  constructor
  · unfold validate_with_pydantic_batch
    by_cases h : strict = true ∧ extraCols df model ≠ []
    · rw [if_pos h, if_pos h]
    · rw [if_neg h, if_neg h, if_pos hmiss]
  · intro c
    simp [missingCols, List.mem_filter]

/-- Witness for the amended C2 on a concrete batch missing b: the validator
rejects it with the missing-columns error naming exactly b. -/
theorem validate_missing_rejected_witness :
    validate_with_pydantic_batch dfMissing contractAB false
      = .error (.missingColumns ["b"]) := by
  have h := (validate_missing_rejected dfMissing contractAB false (by decide)).1
  simpa using h

/-- C9 counterexample: in non-strict mode, a batch with the extra column x on
top of contractA validates, but the returned batch no longer contains x: the
extra column is silently dropped (the source performs no logging at all in
this function, so no warning is reported either). -/
theorem validate_nonstrict_drops_counterexample :
    validate_with_pydantic_batch dfBoth contractA false
        = .ok ⟨["a"], [[("a", Value.vInt 1)]]⟩
    ∧ "x" ∈ dfBoth.columns
    ∧ "x" ∉ (DF.mk ["a"] [[("a", Value.vInt 1)]]).columns := by
  decide

/-- C9 amended: in non-strict mode, when all required fields are present and
convertible, validation succeeds but the returned batch's columns are exactly
the contract's fields, so every extra input column is dropped from the
returned batch; no warning is emitted (the function performs no logging). -/
theorem validate_nonstrict_extra_dropped (df : DF) (model : Contract)
    (hwf : wellFormed df)
    (hexp : ∀ c ∈ fieldNames model, c ∈ df.columns)
    (hconv : ∀ r ∈ df.rows, rowConvertible model r = true)
    (hne : df.rows ≠ []) :
    ∃ out, validate_with_pydantic_batch df model false = .ok out
      ∧ out.columns = fieldNames model
      ∧ ∀ c ∈ extraCols df model, c ∉ out.columns := by
  obtain ⟨ds, _, hok, hlen, hk⟩ :=
    validate_success_core df model false hwf (fun h => by simp at h) hexp hconv
  cases ds with
  | nil =>
    have h0 : df.rows.length = 0 := by simpa using hlen.symm
    exact absurd (List.length_eq_zero.mp h0) hne
  | cons d tl =>
    refine ⟨dataFrameOfDicts (d :: tl), hok, ?_, ?_⟩
    · exact hk d (List.mem_cons_self _ _)
    · intro c hc
      rw [show (dataFrameOfDicts (d :: tl)).columns = d.map Prod.fst from rfl,
        hk d (List.mem_cons_self _ _)]
      simp only [extraCols, List.mem_filter, decide_eq_true_eq] at hc
      exact hc.2

/-- Witness for the amended C9: the concrete non-strict run keeps exactly the
contract column a and drops the extra column x. -/
theorem validate_nonstrict_extra_dropped_witness :
    ∃ out, validate_with_pydantic_batch dfBoth contractA false = .ok out
      ∧ out.columns = fieldNames contractA
      ∧ ∀ c ∈ extraCols dfBoth contractA, c ∉ out.columns :=
  validate_nonstrict_extra_dropped dfBoth contractA
    (by decide) (by decide) (by decide) (by decide)

/-- A zero-row batch whose single column matches contractA. -/
def dfEmptyA : DF := ⟨["a"], []⟩

/-- C10: for a zero-row batch whose column set equals the contract's field
set, validate_with_pydantic_batch succeeds and returns a frame with zero rows
and zero columns, so for a non-empty contract the returned column set no
longer equals the contract's field set. -/
theorem validate_empty_batch (df : DF) (model : Contract) (strict : Bool)
    (hempty : df.rows = [])
    (hrecv : ∀ c ∈ df.columns, c ∈ fieldNames model)
    (hexp : ∀ c ∈ fieldNames model, c ∈ df.columns) :
    validate_with_pydantic_batch df model strict = .ok ⟨[], []⟩
    ∧ (fieldNames model ≠ [] → (DF.mk [] []).columns ≠ fieldNames model) := by
  have hext : extraCols df model = [] := extraCols_eq_nil df model hrecv
  have hmiss : missingCols df model = [] := missingCols_eq_nil df model hexp
  constructor
  · unfold validate_with_pydantic_batch
    rw [if_neg (fun h => h.2 hext), if_neg (fun h => h hmiss), hempty]
    rfl
  · intro hne hcontra
    exact hne hcontra.symm

/-- Witness for C10 on a concrete zero-row batch over contractA. -/
theorem validate_empty_batch_witness :
    validate_with_pydantic_batch dfEmptyA contractA true = .ok ⟨[], []⟩ :=
  (validate_empty_batch dfEmptyA contractA true rfl (by decide) (by decide)).1

/-- An observable effect of an ingestion run. -/
inductive Event where
  | wroteData (path : String)
  | wroteMeta (path : String) (status : String)
  | logged (msg : String)
deriving DecidableEq, Repr

/-- Number of metadata records emitted by a run. -/
def countMeta (events : List Event) : Nat :=
  (events.filter fun e =>
    match e with
    | .wroteMeta _ _ => true
    | _ => false).length

/-- The ingest driver of src/ingestion/pandas_templates/web_scraping_template.py
as a function of its collaborators' outcomes: the configured url (None when
SCRAPING_URL is unset), the fetch-and-parse result (error text, or the parsed
table when one is found), the pydantic validation outcome, and the clock.
Each early-exit branch only logs; data and metadata files are written only
after a successful validation. -/
def webScrapingIngest (url : Option String) (fetchResult : Except String (Option DF))
    (valResult : Except ValErr DF) (t : DateTime) : List Event :=
  match url with
  | none => [.logged "SCRAPING_URL not defined in .env"]
  | some _ =>
    match fetchResult with
    | .error e => [.logged e]
    | .ok none => [.logged "No table found on the page"]
    | .ok (some _) =>
      match valResult with
      | .error _ => [.logged "Pydantic validation error"]
      | .ok _ =>
        let r := generate_file_paths "webscraping" "pandas" t t
        [.wroteData r.output_data_file, .wroteMeta r.output_metadata_file "success"]

/-- A run reaches the success branch exactly when the url is configured, the
fetch produced a table, and validation succeeded. -/
def runSucceeds (url : Option String) (fetchResult : Except String (Option DF))
    (valResult : Except ValErr DF) : Bool :=
  url.isSome
    && (match fetchResult with
        | .ok (some _) => true
        | _ => false)
    && (match valResult with
        | .ok _ => true
        | _ => false)

/-- C4 counterexample: a run whose fetch produced a batch but whose
validation failed emits zero metadata records, not exactly one with status
failure: the driver logs the error and returns without leaving a trace. -/
theorem ingest_validation_failure_counterexample :
    countMeta (webScrapingIngest (some "http://example.com") (.ok (some dfGood))
        (.error .pydanticError) ⟨2024, 5, 7, 12, 0, 0, 0⟩) = 0 := by
  rfl

/-- C4 amended: the driver emits a metadata record only on a fully successful
run, and then exactly one; every failing run (missing config, fetch failure,
no table, or validation error) emits none. -/
theorem ingest_metadata_iff_success (url : Option String)
    (fetchResult : Except String (Option DF)) (valResult : Except ValErr DF)
    (t : DateTime) :
    countMeta (webScrapingIngest url fetchResult valResult t)
      = (if runSucceeds url fetchResult valResult then 1 else 0) := by
  cases url with
  | none => rfl
  | some u =>
    cases fetchResult with
    | error e => rfl
    | ok odf =>
      cases odf with
      | none => rfl
      | some df =>
        cases valResult with
        | error e => rfl
        | ok vdf => rfl

/-- A JSON value in a metadata record: string, count, or a column-to-type
mapping. -/
inductive MetaVal where
  | s (v : String)
  | n (v : Nat)
  | m (v : List (String × String))
deriving DecidableEq, Repr

/-- The metadata dict built by save_data_and_metadata in
src/ingestion/pandas_templates/api_template.py, keys in insertion order. -/
def apiMetadata (origin framework timestamp data_file : String) (rows cols : Nat)
    (columns_types : List (String × String)) : List (String × MetaVal) :=
  [("origin", .s origin), ("framework", .s framework), ("timestamp", .s timestamp),
   ("status", .s "success"), ("data_file", .s data_file), ("rows", .n rows),
   ("columns", .n cols), ("columns_types", .m columns_types)]

/-- The metadata dict built by ingest in
src/ingestion/pandas_templates/csv_template.py, keys in insertion order. -/
def csvMetadata (origem formato timestamp input_file output_file : String)
    (rows cols : Nat) : List (String × MetaVal) :=
  [("origem", .s origem), ("formato", .s formato), ("timestamp", .s timestamp),
   ("status", .s "success"), ("input_file", .s input_file),
   ("output_file", .s output_file), ("quantidade_linhas", .n rows),
   ("quantidade_colunas", .n cols)]

/-- C5 counterexample: the metadata record written by the pandas csv template
carries Portuguese keys and row and column counts under quantidade_linhas and
quantidade_colunas, and contains none of the required keys origin, rows,
columns or columns_types. -/
theorem metadata_keys_counterexample :
    (csvMetadata "csv" "pandas" "2024-05-07_120000" "./in.csv"
        "./data/bronze/csv_pandas_2024-05-07_120000.csv" 3 2).map Prod.fst
      = ["origem", "formato", "timestamp", "status", "input_file", "output_file",
         "quantidade_linhas", "quantidade_colunas"]
    ∧ "columns_types" ∉ (csvMetadata "csv" "pandas" "2024-05-07_120000" "./in.csv"
        "./data/bronze/csv_pandas_2024-05-07_120000.csv" 3 2).map Prod.fst
    ∧ "rows" ∉ (csvMetadata "csv" "pandas" "2024-05-07_120000" "./in.csv"
        "./data/bronze/csv_pandas_2024-05-07_120000.csv" 3 2).map Prod.fst
    ∧ "origin" ∉ (csvMetadata "csv" "pandas" "2024-05-07_120000" "./in.csv"
        "./data/bronze/csv_pandas_2024-05-07_120000.csv" 3 2).map Prod.fst := by
  decide

/-- C5 amended: every template's metadata record contains an origin and
framework identifier, the timestamp, status, the data file path and row and
column counts, but the key names differ per template (English in the api
template, Portuguese in the csv template) and the column-to-type mapping
columns_types is present in the api template only; the csv template omits
it. -/
theorem metadata_keys_by_template (origin framework timestamp data_file
    input_file output_file : String) (rows cols : Nat)
    (columns_types : List (String × String)) :
    (apiMetadata origin framework timestamp data_file rows cols columns_types).map Prod.fst
      = ["origin", "framework", "timestamp", "status", "data_file", "rows",
         "columns", "columns_types"]
    ∧ (csvMetadata origin framework timestamp input_file output_file rows cols).map Prod.fst
      = ["origem", "formato", "timestamp", "status", "input_file", "output_file",
         "quantidade_linhas", "quantidade_colunas"]
    ∧ "columns_types" ∉
        (csvMetadata origin framework timestamp input_file output_file rows cols).map Prod.fst := by
  refine ⟨rfl, rfl, ?_⟩
  have hk : (csvMetadata origin framework timestamp input_file output_file rows cols).map Prod.fst
      = ["origem", "formato", "timestamp", "status", "input_file", "output_file",
         "quantidade_linhas", "quantidade_colunas"] := rfl
  rw [hk]
  decide

/-- A filesystem operation performed by the writer. -/
inductive FsOp where
  | writeFile (path : String)
  | rename (src dst : String)
deriving DecidableEq, Repr

/-- save_dataframe from src/ingestion/pandas_templates/databases_template.py:
df.to_csv or df.to_parquet straight to the final path (the api template's
save_data_and_metadata does the same with df.to_csv); any other format raises
ValueError.  The returned list is the sequence of file operations issued. -/
def save_dataframe (output_path format_ : String) : Except String (List FsOp) :=
  if format_ = "csv" then .ok [.writeFile (output_path ++ ".csv")]
  else if format_ = "parquet" then .ok [.writeFile (output_path ++ ".parquet")]
  else .error "Formato de saída inválido / Invalid output format"

/-- The atomic-replace discipline asserted by the claim: some temporary path
is written and then renamed onto the final path, and the final path is never
written directly. -/
def atomicReplace (ops : List FsOp) (final : String) : Prop :=
  (∃ tmp, FsOp.writeFile tmp ∈ ops ∧ FsOp.rename tmp final ∈ ops)
    ∧ FsOp.writeFile final ∉ ops

/-- C6 counterexample: the writer serializes a concrete batch straight to the
final data file path in a single write, with no temporary file and no rename,
so the write is not atomic-replace. -/
theorem save_dataframe_not_atomic_counterexample :
    save_dataframe "./data/bronze/database_pandas_2024-05-07_120000" "csv"
      = .ok [FsOp.writeFile "./data/bronze/database_pandas_2024-05-07_120000.csv"]
    ∧ ¬ atomicReplace [FsOp.writeFile "./data/bronze/database_pandas_2024-05-07_120000.csv"]
        "./data/bronze/database_pandas_2024-05-07_120000.csv" := by
  constructor
  · rfl
  · rintro ⟨⟨tmp, _, hren⟩, _⟩
    simp at hren

/-- C6 amended: for every supported format the writer issues exactly one
direct write of the serialized batch to the final data file path and never
issues a rename, so no temp-then-rename atomic replacement takes place. -/
theorem save_dataframe_writes_final_directly (output_path format_ : String)
    (ops : List FsOp) (h : save_dataframe output_path format_ = .ok ops) :
    (format_ = "csv" → ops = [FsOp.writeFile (output_path ++ ".csv")])
    ∧ (format_ = "parquet" → ops = [FsOp.writeFile (output_path ++ ".parquet")])
    ∧ (∀ src dst, FsOp.rename src dst ∉ ops) := by
  unfold save_dataframe at h
  by_cases h1 : format_ = "csv"
  · rw [if_pos h1] at h
    cases h
    refine ⟨fun _ => rfl, fun hp => absurd (h1.symm.trans hp) (by decide), ?_⟩
    intro src dst hmem
    simp at hmem
  · rw [if_neg h1] at h
    by_cases h2 : format_ = "parquet"
    · rw [if_pos h2] at h
      cases h
      refine ⟨fun hc => absurd (h2.symm.trans hc) (by decide), fun _ => rfl, ?_⟩
      intro src dst hmem
      simp at hmem
    · rw [if_neg h2] at h
      cases h

/-- Witness for the amended C6: the concrete csv write issues no rename. -/
theorem save_dataframe_writes_final_directly_witness :
    FsOp.rename "./tmp" "./p.csv" ∉ [FsOp.writeFile "./p.csv"] :=
  (save_dataframe_writes_final_directly "./p" "csv"
    [FsOp.writeFile "./p.csv"] rfl).2.2 "./tmp" "./p.csv"

/-- The tenacity decorator retry(stop=stop_after_attempt(fuel + 1)) around a
fallible call: outcomes i is the result of the i-th attempt (0-based); on
failure the call is retried while attempts remain, and the pair returned is
the final result together with the total number of attempts made. -/
def retryAttempts {ε α : Type} (outcomes : Nat → Except ε α) : Nat → Nat → Except ε α × Nat
  | i, 0 => (outcomes i, i + 1)
  | i, fuel + 1 =>
    match outcomes i with
    | .ok a => (.ok a, i + 1)
    | .error _ => retryAttempts outcomes (i + 1) fuel

/-- load_data of src/ingestion/pandas_templates/databases_template.py under
its decorator retry(stop=stop_after_attempt(3)): at most three total
attempts (the s3 template's list_source_files uses the same stop policy). -/
def load_data_retried {ε α : Type} (outcomes : Nat → Except ε α) : Except ε α × Nat :=
  retryAttempts outcomes 0 2

/-- C8: under the retry policy capped at three total attempts, a fetch that
fails transiently twice and then succeeds completes successfully on the third
attempt, and a fetch whose first two attempts fail stops after the third
attempt with that attempt's outcome, whatever it is. -/
theorem load_data_retry_policy {ε α : Type} (outcomes : Nat → Except ε α) :
    (∀ e0 e1 a, outcomes 0 = .error e0 → outcomes 1 = .error e1 →
      outcomes 2 = .ok a → load_data_retried outcomes = (.ok a, 3))
    ∧ (∀ e0 e1, outcomes 0 = .error e0 → outcomes 1 = .error e1 →
      load_data_retried outcomes = (outcomes 2, 3)) := by
  constructor
  · intro e0 e1 a h0 h1 h2
    simp [load_data_retried, retryAttempts, h0, h1, h2]
  · intro e0 e1 h0 h1
    simp [load_data_retried, retryAttempts, h0, h1]

/-- Two transient failures followed by success. -/
def flakyOutcomes : Nat → Except String Nat :=
  fun i => if i < 2 then .error "503" else .ok 200

/-- Witness for C8: the concrete flaky fetch succeeds on the third attempt
with a total of three attempts. -/
theorem load_data_retry_policy_witness :
    load_data_retried flakyOutcomes = (.ok 200, 3) :=
  (load_data_retry_policy flakyOutcomes).1 "503" "503" 200 rfl rfl rfl

end QuickELT
